import Mathlib

/-!
Verification of the pinhole-camera geometry module of `impreproc`
(`src/impreproc/camera.py`) against its natural-language specification.

Matrices are embedded shallowly over `ℚ` (exact arithmetic; every equality
proved exactly also holds within any floating tolerance such as 1e-9 or
1e-6 quoted by the specification).  Two layers mirror the Python code:

* fixed-shape functions (`Fin 3`/`Fin 4` indexed) for the pure geometry
  that the code performs on matrices whose shapes are statically known
  along the success path (`extrinsics_to_pose`, `pose_to_extrinsics`,
  the `factor_P` sign normalization);
* a dynamic-shape `NpArr` type (shape + dtype + entries, like a numpy
  array) for the code paths whose behaviour depends on runtime shape and
  dtype (`build_block_matrix`, `Rt_to_extrinsics`, `update_extrinsics`,
  the `Camera` state and the calibration parsers).

Python exceptions are embedded as `Except PyErr`.
-/

/-- Square 3x3 rational matrix, the shape of `K`, `R` and the rotation
block of a homogeneous transform. -/
abbrev M3 : Type := Fin 3 → Fin 3 → ℚ

/-- Length-3 rational column vector. -/
abbrev V3 : Type := Fin 3 → ℚ

/-- Square 4x4 rational matrix, the shape of extrinsics and pose matrices. -/
abbrev M4 : Type := Fin 4 → Fin 4 → ℚ

/-- Matrix product of two 3x3 matrices (`np.dot` / `@` on 3x3 arrays). -/
def mul3 (A B : M3) : M3 := fun i j =>
  A i 0 * B 0 j + A i 1 * B 1 j + A i 2 * B 2 j

/-- Matrix product of two 4x4 matrices (`np.dot` / `@` on 4x4 arrays). -/
def mul4 (A B : M4) : M4 := fun i j =>
  A i 0 * B 0 j + A i 1 * B 1 j + A i 2 * B 2 j + A i 3 * B 3 j

/-- Matrix-vector product of a 3x3 matrix with a 3x1 column
(`np.dot(R, t)` on a 3x3 and a 3x1 array). -/
def mulv3 (A : M3) (v : V3) : V3 := fun i =>
  A i 0 * v 0 + A i 1 * v 1 + A i 2 * v 2

/-- Transpose of a 3x3 matrix (`R.T`). -/
def tr3 (A : M3) : M3 := fun i j => A j i

/-- Entrywise negation of a 3x1 column (`-v`). -/
def neg3 (v : V3) : V3 := fun i => -(v i)

/-- 3x3 identity matrix (`np.eye(3)`). -/
def id3 : M3 := fun i j => if i = j then 1 else 0

/-- Determinant of a 3x3 matrix (Laplace expansion along the first row). -/
def det3 (A : M3) : ℚ :=
  A 0 0 * (A 1 1 * A 2 2 - A 1 2 * A 2 1)
  - A 0 1 * (A 1 0 * A 2 2 - A 1 2 * A 2 0)
  + A 0 2 * (A 1 0 * A 2 1 - A 1 1 * A 2 0)

/-- Upper-left 3x3 rotation block of a 4x4 homogeneous matrix
(`extrinsics[0:3, 0:3]`). -/
def rot4 (M : M4) : M3 :=
  ![![M 0 0, M 0 1, M 0 2],
    ![M 1 0, M 1 1, M 1 2],
    ![M 2 0, M 2 1, M 2 2]]

/-- Translation column of a 4x4 homogeneous matrix (`extrinsics[0:3, 3:4]`). -/
def trans4 (M : M4) : V3 := ![M 0 3, M 1 3, M 2 3]

/-- Fixed-shape image of `Camera.build_block_matrix` on a 3x3 input:
`np.block([[mat, np.zeros((3, 1))], [np.zeros((1, 3)), 1]])`. -/
def build_block_33 (R : M3) : M4 :=
  ![![R 0 0, R 0 1, R 0 2, 0],
    ![R 1 0, R 1 1, R 1 2, 0],
    ![R 2 0, R 2 1, R 2 2, 0],
    ![0, 0, 0, 1]]

/-- Fixed-shape image of `Camera.build_block_matrix` on a 3x1 input:
`np.block([[np.eye(3), mat], [np.zeros((1, 3)), 1]])`. -/
def build_block_31 (v : V3) : M4 :=
  ![![1, 0, 0, v 0],
    ![0, 1, 0, v 1],
    ![0, 0, 1, v 2],
    ![0, 0, 0, 1]]

/-- Explicit 4x4 homogeneous matrix `[[R, v], [0 0 0 1]]`; the normal form
every product `build_block_31 v * build_block_33 R` reduces to. -/
def mkHom (R : M3) (v : V3) : M4 :=
  ![![R 0 0, R 0 1, R 0 2, v 0],
    ![R 1 0, R 1 1, R 1 2, v 1],
    ![R 2 0, R 2 1, R 2 2, v 2],
    ![0, 0, 0, 1]]

/-- The last row of a 4x4 matrix is `[0, 0, 0, 1]` (homogeneous form). -/
def lastRowHom (M : M4) : Prop :=
  M 3 0 = 0 ∧ M 3 1 = 0 ∧ M 3 2 = 0 ∧ M 3 3 = 1

instance (M : M4) : Decidable (lastRowHom M) := by
  unfold lastRowHom; infer_instance

/-- Embeds `Camera.extrinsics_to_pose`: from the extrinsics matrix take
`R = extrinsics[0:3,0:3]`, `t = extrinsics[0:3,3:4]`, form `Rc = R.T`,
`C = -np.dot(Rc, t)` and return `np.dot(C_block, Rc_block)` where the
blocks come from `build_block_matrix`. -/
def extrinsics_to_pose (extrinsics : M4) : M4 :=
  let R := rot4 extrinsics
  let t := trans4 extrinsics
  let Rc := tr3 R
  let C := neg3 (mulv3 Rc t)
  mul4 (build_block_31 C) (build_block_33 Rc)

/-- Embeds `Camera.pose_to_extrinsics`: from the pose matrix take
`Rc = pose[0:3,0:3]`, `C = pose[0:3,3:4]`, form `R = Rc.T`, `t = -R @ C`
and return `t_block @ R_block`. -/
def pose_to_extrinsics (pose : M4) : M4 :=
  let Rc := rot4 pose
  let C := trans4 pose
  let R := tr3 Rc
  let t := neg3 (mulv3 R C)
  mul4 (build_block_31 t) (build_block_33 R)

theorem tr3_tr3 (A : M3) : tr3 (tr3 A) = A := rfl

theorem m4_indices : ∀ i : Fin 4, i = 0 ∨ i = 1 ∨ i = 2 ∨ i = 3 := by decide

theorem m3_indices : ∀ i : Fin 3, i = 0 ∨ i = 1 ∨ i = 2 := by decide

theorem neg3_mulv3_neg3 (A : M3) (v : V3) : neg3 (mulv3 A (neg3 v)) = mulv3 A v := by
  funext i
  simp [neg3, mulv3]
  ring

theorem mulv3_mul3 (A B : M3) (v : V3) :
    mulv3 A (mulv3 B v) = mulv3 (mul3 A B) v := by
  funext i
  simp [mulv3, mul3]
  ring

theorem mulv3_id3 (v : V3) : mulv3 id3 v = v := by
  funext i
  rcases m3_indices i with rfl | rfl | rfl <;> simp [mulv3, id3]

theorem bb31_mul_bb33 (v : V3) (R : M3) :
    mul4 (build_block_31 v) (build_block_33 R) = mkHom R v := by
  funext i j
  rcases m4_indices i with rfl | rfl | rfl | rfl <;>
    rcases m4_indices j with rfl | rfl | rfl | rfl <;>
      simp [mul4, build_block_31, build_block_33, mkHom, Matrix.vecHead, Matrix.vecTail]

theorem rot4_mkHom (R : M3) (v : V3) : rot4 (mkHom R v) = R := by
  funext i j
  rcases m3_indices i with rfl | rfl | rfl <;>
    rcases m3_indices j with rfl | rfl | rfl <;> simp [rot4, mkHom, Matrix.vecHead, Matrix.vecTail]

theorem trans4_mkHom (R : M3) (v : V3) : trans4 (mkHom R v) = v := by
  funext i
  rcases m3_indices i with rfl | rfl | rfl <;> simp [trans4, mkHom, Matrix.vecHead, Matrix.vecTail]

theorem mkHom_rot4_trans4 (M : M4) (h : lastRowHom M) :
    mkHom (rot4 M) (trans4 M) = M := by
  obtain ⟨h0, h1, h2, h3⟩ := h
  funext i j
  rcases m4_indices i with rfl | rfl | rfl | rfl <;>
    rcases m4_indices j with rfl | rfl | rfl | rfl <;>
      simp [mkHom, rot4, trans4, Matrix.vecHead, Matrix.vecTail, h0, h1, h2, h3]

theorem extrinsics_to_pose_mkHom (M : M4) :
    extrinsics_to_pose M
      = mkHom (tr3 (rot4 M)) (neg3 (mulv3 (tr3 (rot4 M)) (trans4 M))) :=
  bb31_mul_bb33 _ _

theorem pose_to_extrinsics_mkHom (M : M4) :
    pose_to_extrinsics M
      = mkHom (tr3 (rot4 M)) (neg3 (mulv3 (tr3 (rot4 M)) (trans4 M))) :=
  bb31_mul_bb33 _ _

/-- C1: for every 4x4 pose matrix `P` (homogeneous last row, orthonormal
rotation block with determinant +1, arbitrary translation column),
`extrinsics_to_pose(pose_to_extrinsics(P)) = P`, and symmetrically
`pose_to_extrinsics(extrinsics_to_pose(E)) = E` for every such valid
extrinsics matrix `E`.  Equality is exact over `ℚ`, hence in particular
within the specification's floating tolerance of 1e-9. -/
theorem C1_pose_extrinsics_round_trip
    (P E : M4)
    (hProw : lastRowHom P)
    (hPorth1 : mul3 (tr3 (rot4 P)) (rot4 P) = id3)
    (hPorth2 : mul3 (rot4 P) (tr3 (rot4 P)) = id3)
    (hPdet : det3 (rot4 P) = 1)
    (hErow : lastRowHom E)
    (hEorth1 : mul3 (tr3 (rot4 E)) (rot4 E) = id3)
    (hEorth2 : mul3 (rot4 E) (tr3 (rot4 E)) = id3)
    (hEdet : det3 (rot4 E) = 1) :
    extrinsics_to_pose (pose_to_extrinsics P) = P
      ∧ pose_to_extrinsics (extrinsics_to_pose E) = E := by
  constructor
  · rw [pose_to_extrinsics_mkHom, extrinsics_to_pose_mkHom, rot4_mkHom, trans4_mkHom,
      tr3_tr3, neg3_mulv3_neg3, mulv3_mul3, hPorth2, mulv3_id3, mkHom_rot4_trans4 P hProw]
  · rw [extrinsics_to_pose_mkHom, pose_to_extrinsics_mkHom, rot4_mkHom, trans4_mkHom,
      tr3_tr3, neg3_mulv3_neg3, mulv3_mul3, hEorth2, mulv3_id3, mkHom_rot4_trans4 E hErow]

/-- Concrete valid pose matrix: rotation by 90 degrees about the z axis,
translation (1, 2, 3). -/
def poseExample : M4 :=
  ![![0, -1, 0, 1],
    ![1, 0, 0, 2],
    ![0, 0, 1, 3],
    ![0, 0, 0, 1]]

/-- Concrete valid extrinsics matrix: rotation by 90 degrees about the x
axis, translation (4, 5, 6). -/
def extrExample : M4 :=
  ![![1, 0, 0, 4],
    ![0, 0, -1, 5],
    ![0, 1, 0, 6],
    ![0, 0, 0, 1]]

theorem poseExample_valid :
    lastRowHom poseExample
      ∧ mul3 (tr3 (rot4 poseExample)) (rot4 poseExample) = id3
      ∧ mul3 (rot4 poseExample) (tr3 (rot4 poseExample)) = id3
      ∧ det3 (rot4 poseExample) = 1 := by
  refine ⟨?_, ?_, ?_, ?_⟩
  · simp [lastRowHom, poseExample, Matrix.vecHead, Matrix.vecTail]
  · funext i j
    rcases m3_indices i with rfl | rfl | rfl <;> rcases m3_indices j with rfl | rfl | rfl <;>
      simp [mul3, tr3, rot4, id3, poseExample, Matrix.vecHead, Matrix.vecTail]
  · funext i j
    rcases m3_indices i with rfl | rfl | rfl <;> rcases m3_indices j with rfl | rfl | rfl <;>
      simp [mul3, tr3, rot4, id3, poseExample, Matrix.vecHead, Matrix.vecTail]
  · simp [det3, rot4, poseExample, Matrix.vecHead, Matrix.vecTail]

theorem extrExample_valid :
    lastRowHom extrExample
      ∧ mul3 (tr3 (rot4 extrExample)) (rot4 extrExample) = id3
      ∧ mul3 (rot4 extrExample) (tr3 (rot4 extrExample)) = id3
      ∧ det3 (rot4 extrExample) = 1 := by
  refine ⟨?_, ?_, ?_, ?_⟩
  · simp [lastRowHom, extrExample, Matrix.vecHead, Matrix.vecTail]
  · funext i j
    rcases m3_indices i with rfl | rfl | rfl <;> rcases m3_indices j with rfl | rfl | rfl <;>
      simp [mul3, tr3, rot4, id3, extrExample, Matrix.vecHead, Matrix.vecTail]
  · funext i j
    rcases m3_indices i with rfl | rfl | rfl <;> rcases m3_indices j with rfl | rfl | rfl <;>
      simp [mul3, tr3, rot4, id3, extrExample, Matrix.vecHead, Matrix.vecTail]
  · simp [det3, rot4, extrExample, Matrix.vecHead, Matrix.vecTail]

theorem C1_pose_extrinsics_round_trip_witness :
    extrinsics_to_pose (pose_to_extrinsics poseExample) = poseExample
      ∧ pose_to_extrinsics (extrinsics_to_pose extrExample) = extrExample :=
  C1_pose_extrinsics_round_trip poseExample extrExample
    poseExample_valid.1 poseExample_valid.2.1 poseExample_valid.2.2.1 poseExample_valid.2.2.2
    extrExample_valid.1 extrExample_valid.2.1 extrExample_valid.2.2.1 extrExample_valid.2.2.2

/-- Numpy dtypes the validation code distinguishes. -/
inductive DType
  | float64
  | float32
  deriving DecidableEq

/-- Python exceptions raised (or propagated) by the embedded code paths. -/
inductive PyErr
  | assertionError
  | valueError
  | valueErrorGrammar
  | indexError
  | typeError
  | keyError
  | lookupError
  deriving DecidableEq

/-- A numpy array as the dynamically-shaped code paths see it: 1-D
(`vec`, shape `(n,)`) or 2-D (`mat`, shape `(r, c)`), with a dtype tag;
entries are `ℚ`. -/
inductive NpArr
  | vec (dtype : DType) (elems : List ℚ)
  | mat (dtype : DType) (rows : List (List ℚ))
  deriving DecidableEq

/-- Shape tuple of an array (`arr.shape`). -/
def NpArr.shape : NpArr → List Nat
  | .vec _ es => [es.length]
  | .mat _ rows => [rows.length, (rows.headD []).length]

/-- Dtype of an array (`arr.dtype`). -/
def NpArr.dtype : NpArr → DType
  | .vec d _ => d
  | .mat d _ => d

/-- Row `i` of a 2-D array (`arr[i, :]`); `[]` for a 1-D array (the
embedded paths only read rows of 2-D arrays). -/
def NpArr.row : NpArr → Nat → List ℚ
  | .vec _ _, _ => []
  | .mat _ rows, i => rows.getD i []

/-- The rows form an `r` by `c` rectangle (what numpy guarantees of every
2-D array of that shape). -/
def isRectB (rows : List (List ℚ)) (r c : Nat) : Bool :=
  rows.length == r && rows.all (fun row => row.length == c)

/-- Embeds `Camera.build_block_matrix`.  Dispatches on `mat.shape[1]`: a
1-D input raises IndexError (`shape[1]` is out of range for a 1-tuple); a
2-D input with 3 columns is wrapped as `np.block([[mat, zeros(3,1)],
[zeros(1,3), 1]])` and one with 1 column as `np.block([[eye(3), mat],
[zeros(1,3), 1]])`, where `np.block` raises ValueError unless the row
counts match (the input must have 3 rows); any other column count logs an
error and returns `None` — no exception is raised on that path. -/
def build_block_matrix (a : NpArr) : Except PyErr (Option NpArr) :=
  match a with
  | .vec _ _ => .error .indexError
  | .mat _ rows =>
    if (rows.headD []).length = 3 then
      if isRectB rows 3 3 then
        .ok (some (.mat .float64 (rows.map (fun r => r ++ [0]) ++ [[0, 0, 0, 1]])))
      else .error .valueError
    else if (rows.headD []).length = 1 then
      if isRectB rows 3 1 then
        .ok (some (.mat .float64
          [[1, 0, 0, (rows.getD 0 []).getD 0 0],
           [0, 1, 0, (rows.getD 1 []).getD 0 0],
           [0, 0, 1, (rows.getD 2 []).getD 0 0],
           [0, 0, 0, 1]]))
      else .error .valueError
    else .ok none

/-- One entry of a matrix product: the dot product of `row` with column
`j` of `B`. -/
def dotRow (row : List ℚ) (B : List (List ℚ)) (j : Nat) : ℚ :=
  (List.range row.length).foldl (fun s k => s + row.getD k 0 * (B.getD k []).getD j 0) 0

/-- Embeds the `@` operator as applied to results of
`build_block_matrix` (`t_block @ R_block`): a `None` operand raises
TypeError, a shape mismatch between 2-D operands raises ValueError,
otherwise the standard matrix product (float64). -/
def npMatmul : Option NpArr → Option NpArr → Except PyErr NpArr
  | some (.mat _ ra), some (.mat _ rb) =>
    if (ra.headD []).length = rb.length then
      .ok (.mat .float64
        (ra.map (fun row => (List.range (rb.headD []).length).map (fun j => dotRow row rb j))))
    else .error .valueError
  | some _, some _ => .error .valueError
  | _, _ => .error .typeError

/-- Embeds `t.reshape(3, 1)` as used on the (already length-3) 1-D branch
of `Rt_to_extrinsics`. -/
def reshape31 : NpArr → NpArr
  | .vec d es => .mat d (es.map (fun x => [x]))
  | .mat d rows => .mat d (rows.flatten.map (fun x => [x]))

/-- Embeds `Camera.Rt_to_extrinsics`: when `t` is 1-D or has shape
(1, 3), `assert t.shape[0] == 3` — an AssertionError for the (1, 3) case,
whose `shape[0]` is 1 — then reshape `t` to (3, 1); finally compose
`t_block @ R_block` from `build_block_matrix` blocks. -/
def Rt_to_extrinsics (R t : NpArr) : Except PyErr NpArr := do
  let t' ←
    if t.shape.length = 1 ∨ t.shape = [1, 3] then
      if t.shape.getD 0 0 = 3 then pure (reshape31 t)
      else Except.error .assertionError
    else pure t
  let R_block ← build_block_matrix R
  let t_block ← build_block_matrix t'
  npMatmul t_block R_block

/-- The mutable state of a `Camera` instance.  `_w`/`_h` hold the
constructor's width/height and are what the `width`/`height` properties
return; `_width`/`_height` are the distinct attributes that
`read_calibration_from_file` creates (the Python method assigns
`self._width`, not `self._w`).  Intrinsics are kept at their intended
fixed shapes, since no claim depends on their dynamic shape. -/
structure Camera where
  _w : Option ℚ
  _h : Option ℚ
  _K : Option M3
  _dist : Option (List ℚ)
  _extrinsics : NpArr
  _width : Option ℚ
  _height : Option ℚ
  deriving DecidableEq

/-- The result of `np.eye(4)` (float64). -/
def eye4na : NpArr :=
  .mat .float64 [[1, 0, 0, 0], [0, 1, 0, 0], [0, 0, 1, 0], [0, 0, 0, 1]]

/-- Embeds `Camera.reset_EO`: `self._extrinsics = np.eye(4)`. -/
def reset_EO (c : Camera) : Camera := { c with _extrinsics := eye4na }

/-- Embeds `Camera.update_K`: unconditional replacement. -/
def update_K (c : Camera) (K : M3) : Camera := { c with _K := some K }

/-- Embeds `Camera.update_dist`: unconditional replacement. -/
def update_dist (c : Camera) (dist : List ℚ) : Camera := { c with _dist := some dist }

/-- The property `update_extrinsics`'s three asserts test: shape (4, 4),
dtype float64, last row exactly `[0, 0, 0, 1]`. -/
def validExtrinsics (m : NpArr) : Prop :=
  m.shape = [4, 4] ∧ m.dtype = .float64 ∧ m.row 3 = [0, 0, 0, 1]

instance (m : NpArr) : Decidable (validExtrinsics m) := by
  unfold validExtrinsics; infer_instance

/-- Embeds `Camera.update_extrinsics`: `assert`s that the argument has
shape (4, 4), dtype float64 and last row exactly `[0, 0, 0, 1]`
(`np.array_equal`), then stores it. -/
def update_extrinsics (c : Camera) (m : NpArr) : Except PyErr Camera :=
  if m.shape = [4, 4] then
    if m.dtype = .float64 then
      if m.row 3 = [0, 0, 0, 1] then .ok { c with _extrinsics := m }
      else .error .assertionError
    else .error .assertionError
  else .error .assertionError

/-- Embeds `read_opencv_calibration` on the whitespace-tokenised
calibration line (`np.loadtxt` output).  With fewer than 2 tokens the
reads `data[0]`/`data[1]` raise IndexError (a 1-token file loads as a
0-d array); with fewer than 11 the reshape of `data[2:11]` to (3, 3)
raises numpy's ValueError; then `K` is the 9 values at offset 2 reshaped
row-major, and the total length must be 15, 16 or 19 — anything else
raises the ValueError describing the expected grammar. -/
def read_opencv_calibration (data : List ℚ) : Except PyErr (ℚ × ℚ × M3 × List ℚ) :=
  if data.length < 2 then .error .indexError
  else if data.length < 11 then .error .valueError
  else
    let w := data.getD 0 0
    let h := data.getD 1 0
    let K : M3 := fun i j => data.getD (2 + 3 * (i : ℕ) + (j : ℕ)) 0
    if data.length = 15 then .ok (w, h, K, (data.drop 11).take 4)
    else if data.length = 16 then .ok (w, h, K, (data.drop 11).take 5)
    else if data.length = 19 then .ok (w, h, K, (data.drop 11).take 8)
    else .error .valueErrorGrammar

/-- Embeds `Camera.read_calibration_from_file` on the already-tokenised
calibration line: parses it with `read_opencv_calibration` and stores
the results — width and height go to `self._width`/`self._height`,
attribute names distinct from the `_w`/`_h` that the public accessors
read. -/
def read_calibration_from_file (c : Camera) (data : List ℚ) : Except PyErr Camera := do
  let r ← read_opencv_calibration data
  pure { c with
    _width := some r.1, _height := some r.2.1,
    _K := some r.2.2.1, _dist := some r.2.2.2 }

/-- Embeds `Camera.__init__`: stores width/height/K/dist, calls
`reset_EO`, then overrides the extrinsics from `(R, t)` when both are
given, then from the explicit `extrinsics` argument when given — stored
directly, with no validation — and finally reads the calibration data
when given (the file's token list stands in for `calib_path`). -/
def Camera.init (width height : Option ℚ) (K : Option M3) (dist : Option (List ℚ))
    (R t : Option NpArr) (extrinsics : Option NpArr) (calib : Option (List ℚ)) :
    Except PyErr Camera := do
  let c0 : Camera :=
    { _w := width, _h := height, _K := K, _dist := dist,
      _extrinsics := eye4na, _width := none, _height := none }
  let c1 ←
    match R, t with
    | some R0, some t0 => do
      let e ← Rt_to_extrinsics R0 t0
      pure { c0 with _extrinsics := e }
    | _, _ => pure c0
  let c2 :=
    match extrinsics with
    | some e => { c1 with _extrinsics := e }
    | none => c1
  match calib with
  | some data => read_calibration_from_file c2 data
  | none => pure c2

/-- Embeds the `Camera.width` property: returns `self._w`. -/
def Camera.width (c : Camera) : Option ℚ := c._w

/-- Embeds the `Camera.height` property: returns `self._h`. -/
def Camera.height (c : Camera) : Option ℚ := c._h

/-- Embeds the `Camera.K` property: returns `self._K`. -/
def Camera.K (c : Camera) : Option M3 := c._K

/-- Embeds the `Camera.dist` property: returns `self._dist`. -/
def Camera.dist (c : Camera) : Option (List ℚ) := c._dist

/-- A 3x3 float64 identity: wrong shape for `update_extrinsics`. -/
def extr3x3 : NpArr := .mat .float64 [[1, 0, 0], [0, 1, 0], [0, 0, 1]]

/-- A 4x4 float32 identity: wrong dtype for `update_extrinsics`. -/
def extrF32 : NpArr :=
  .mat .float32 [[1, 0, 0, 0], [0, 1, 0, 0], [0, 0, 1, 0], [0, 0, 0, 1]]

/-- A 4x4 float64 matrix whose last row is `[0, 0, 0, 1e-5]`: not
homogeneous, so rejected by `update_extrinsics`. -/
def extrBadRow : NpArr :=
  .mat .float64 [[1, 0, 0, 0], [0, 1, 0, 0], [0, 0, 1, 0], [0, 0, 0, 1e-5]]

/-- C2: `update_extrinsics` succeeds — storing the argument as the
camera's extrinsics — exactly on 4x4 float64 matrices whose last row is
exactly `[0, 0, 0, 1]`, and raises the validation error (`assert`) on
every other input; in particular it rejects a 3x3 input, a float32 input
and a 4x4 input with last row `[0, 0, 0, 1e-5]`, and accepts the 4x4
float64 identity. -/
theorem C2_update_extrinsics_validation :
    (∀ (c : Camera) (m : NpArr),
        (validExtrinsics m → update_extrinsics c m = .ok { c with _extrinsics := m })
      ∧ (¬ validExtrinsics m → update_extrinsics c m = .error .assertionError))
    ∧ (∀ c : Camera,
        update_extrinsics c extr3x3 = .error .assertionError
      ∧ update_extrinsics c extrF32 = .error .assertionError
      ∧ update_extrinsics c extrBadRow = .error .assertionError
      ∧ update_extrinsics c eye4na = .ok { c with _extrinsics := eye4na }) := by
  constructor
  · intro c m
    constructor
    · rintro ⟨h1, h2, h3⟩
      simp [update_extrinsics, h1, h2, h3]
    · intro h
      unfold update_extrinsics
      split_ifs with h1 h2 h3
      · exact absurd ⟨h1, h2, h3⟩ h
      · rfl
      · rfl
      · rfl
  · intro c
    refine ⟨?_, ?_, ?_, ?_⟩ <;>
      simp [update_extrinsics, extr3x3, extrF32, extrBadRow, eye4na,
        NpArr.shape, NpArr.dtype, NpArr.row] <;>
      norm_num

/-- The specification's 15-token calibration line
`"1920 1080 1000 0 960 0 1000 540 0 0 1 0.1 0.05 0.001 0.002"`
after tokenisation. -/
def calib15Example : List ℚ :=
  [1920, 1080, 1000, 0, 960, 0, 1000, 540, 0, 0, 1, 0.1, 0.05, 0.001, 0.002]

/-- The intrinsic matrix `[[1000, 0, 960], [0, 1000, 540], [0, 0, 1]]`. -/
def Kc : M3 := ![![1000, 0, 960], ![0, 1000, 540], ![0, 0, 1]]

theorem calib15_K_eq :
    (fun i j => (calib15Example.getD (2 + 3 * (i : Fin 3) + (j : Fin 3)) 0 : ℚ)) = Kc := by
  funext i j
  rcases m3_indices i with rfl | rfl | rfl <;> rcases m3_indices j with rfl | rfl | rfl <;> rfl

theorem C4_counterexample :
    read_opencv_calibration [1920] = .error .indexError
      ∧ PyErr.indexError ≠ PyErr.valueError
      ∧ PyErr.indexError ≠ PyErr.valueErrorGrammar :=
  ⟨rfl, by decide, by decide⟩

/-- C4 (amended): `read_opencv_calibration` accepts exactly the token
counts 15, 16 and 19, returning `w = data[0]`, `h = data[1]`, `K` the 9
values at offset 2 reshaped row-major into 3x3, and `dist` the remaining
tail; a token count of at least 11 outside {15, 16, 19} (e.g. 14) raises
the ValueError describing the expected grammar; token counts 2..10 raise
numpy's reshape ValueError instead (its message does not describe the
grammar), and counts 0..1 raise IndexError.  The specification's
15-token example line yields w = 1920, h = 1080,
K = [[1000,0,960],[0,1000,540],[0,0,1]], dist = [0.1,0.05,0.001,0.002]. -/
theorem C4_read_opencv_calibration_amended :
    (∀ data : List ℚ,
        (data.length ≤ 1 → read_opencv_calibration data = .error .indexError)
      ∧ (2 ≤ data.length → data.length ≤ 10 →
          read_opencv_calibration data = .error .valueError)
      ∧ (11 ≤ data.length → data.length ≠ 15 → data.length ≠ 16 → data.length ≠ 19 →
          read_opencv_calibration data = .error .valueErrorGrammar)
      ∧ (data.length = 15 →
          read_opencv_calibration data
            = .ok (data.getD 0 0, data.getD 1 0,
                fun i j => data.getD (2 + 3 * (i : Fin 3) + (j : Fin 3)) 0,
                (data.drop 11).take 4))
      ∧ (data.length = 16 →
          read_opencv_calibration data
            = .ok (data.getD 0 0, data.getD 1 0,
                fun i j => data.getD (2 + 3 * (i : Fin 3) + (j : Fin 3)) 0,
                (data.drop 11).take 5))
      ∧ (data.length = 19 →
          read_opencv_calibration data
            = .ok (data.getD 0 0, data.getD 1 0,
                fun i j => data.getD (2 + 3 * (i : Fin 3) + (j : Fin 3)) 0,
                (data.drop 11).take 8)))
    ∧ read_opencv_calibration calib15Example
        = .ok (1920, 1080, Kc, [0.1, 0.05, 0.001, 0.002]) := by
  constructor
  · intro data
    refine ⟨fun h1 => ?_, fun h2 h10 => ?_, fun h11 h15 h16 h19 => ?_,
      fun h15 => ?_, fun h16 => ?_, fun h19 => ?_⟩
    · simp only [read_opencv_calibration]
      rw [if_pos (by omega)]
    · simp only [read_opencv_calibration]
      rw [if_neg (by omega), if_pos (by omega)]
    · simp only [read_opencv_calibration]
      rw [if_neg (by omega), if_neg (by omega), if_neg h15, if_neg h16, if_neg h19]
    · simp only [read_opencv_calibration]
      rw [if_neg (by omega), if_neg (by omega), if_pos h15]
    · simp only [read_opencv_calibration]
      rw [if_neg (by omega), if_neg (by omega), if_neg (by omega), if_pos h16]
    · simp only [read_opencv_calibration]
      rw [if_neg (by omega), if_neg (by omega), if_neg (by omega), if_neg (by omega),
        if_pos h19]
  · rw [show read_opencv_calibration calib15Example
        = .ok (calib15Example.getD 0 0, calib15Example.getD 1 0,
            fun i j => calib15Example.getD (2 + 3 * (i : Fin 3) + (j : Fin 3)) 0,
            (calib15Example.drop 11).take 4) from rfl]
    rw [calib15_K_eq]
    rfl

theorem C9_counterexample :
    build_block_matrix (NpArr.mat .float64 [[1, 2], [3, 4]]) = .ok none
      ∧ build_block_matrix (NpArr.mat .float64 [[1, 2], [3, 4]]) ≠ .error .assertionError := by
  constructor
  · rfl
  · intro h
    exact Except.noConfusion
      (show (Except.ok none : Except PyErr (Option NpArr)) = .error .assertionError from h)

/-- C9 (amended): `build_block_matrix` returns the 4x4 block matrix
`[[block, 0], [0 0 0 1]]` for every 3x3 input and `[[I3, v], [0 0 0 1]]`
for every 3x1 input; a 2-D input whose column count is neither 1 nor 3
logs an error and returns `None` — it raises nothing, contrary to the
claimed ValidationError; a 2-D input with 1 or 3 columns but a row count
other than 3 raises `np.block`'s ValueError; and a 1-D input raises
IndexError (`mat.shape[1]` is out of range). -/
theorem C9_build_block_matrix_amended :
    (∀ (d : DType) (rows : List (List ℚ)),
        (isRectB rows 3 3 = true →
          build_block_matrix (.mat d rows)
            = .ok (some (.mat .float64 (rows.map (fun r => r ++ [0]) ++ [[0, 0, 0, 1]]))))
      ∧ (isRectB rows 3 1 = true →
          build_block_matrix (.mat d rows)
            = .ok (some (.mat .float64
                [[1, 0, 0, (rows.getD 0 []).getD 0 0],
                 [0, 1, 0, (rows.getD 1 []).getD 0 0],
                 [0, 0, 1, (rows.getD 2 []).getD 0 0],
                 [0, 0, 0, 1]])))
      ∧ ((rows.headD []).length ≠ 3 → (rows.headD []).length ≠ 1 →
          build_block_matrix (.mat d rows) = .ok none)
      ∧ ((rows.headD []).length = 3 → isRectB rows 3 3 = false →
          build_block_matrix (.mat d rows) = .error .valueError)
      ∧ ((rows.headD []).length = 1 → isRectB rows 3 1 = false →
          build_block_matrix (.mat d rows) = .error .valueError))
    ∧ (∀ (d : DType) (es : List ℚ), build_block_matrix (.vec d es) = .error .indexError) := by
  constructor
  · intro d rows
    refine ⟨fun h33 => ?_, fun h31 => ?_, fun hn3 hn1 => ?_, fun h3 hbad => ?_,
      fun h1 hbad => ?_⟩
    · have hlen : rows.length = 3 ∧ ∀ r ∈ rows, r.length = 3 := by
        simpa [isRectB, List.all_eq_true] using h33
      have hhead : (rows.headD []).length = 3 := by
        rcases rows with _ | ⟨r0, rest⟩
        · simp at hlen
        · exact hlen.2 r0 (by simp)
      simp only [build_block_matrix]
      rw [if_pos hhead, if_pos h33]
    · have hlen : rows.length = 3 ∧ ∀ r ∈ rows, r.length = 1 := by
        simpa [isRectB, List.all_eq_true] using h31
      have hhead : (rows.headD []).length = 1 := by
        rcases rows with _ | ⟨r0, rest⟩
        · simp at hlen
        · exact hlen.2 r0 (by simp)
      simp only [build_block_matrix]
      rw [if_neg (by omega), if_pos hhead, if_pos h31]
    · simp only [build_block_matrix]
      rw [if_neg hn3, if_neg hn1]
    · simp only [build_block_matrix]
      rw [if_pos h3, if_neg (by simp [hbad])]
    · simp only [build_block_matrix]
      rw [if_neg (by omega), if_pos h1, if_neg (by simp [hbad])]
  · intro d es
    rfl

/-- The 3x3 float64 identity (`np.eye(3)`), used as a rotation input. -/
def eye3na : NpArr := .mat .float64 [[1, 0, 0], [0, 1, 0], [0, 0, 1]]

/-- True exactly on the `ok` branch of an `Except` value. -/
def isOkE {e a : Type} : Except e a → Bool
  | .ok _ => true
  | .error _ => false

/-- C8 (code bug): `Rt_to_extrinsics` rejects a 1x3 translation with the
validation error — the branch testing for shape (1, 3) then asserts
`t.shape[0] == 3`, which reads 1 — although spec and docstring accept a
1x3 row; and a 3x3 "translation" with nine elements is accepted (it falls
through to `build_block_matrix`'s 3-column branch) although the claim
says every `t` without exactly 3 elements is rejected. -/
theorem C8_Rt_to_extrinsics_bug :
    Rt_to_extrinsics eye3na (NpArr.mat .float64 [[1, 2, 3]]) = .error .assertionError
      ∧ isOkE (Rt_to_extrinsics eye3na
          (NpArr.mat .float64 [[1, 2, 3], [4, 5, 6], [7, 8, 9]])) = true := by
  exact ⟨rfl, rfl⟩

/-- A camera constructed with width 100 and height 50 and no other data. -/
def c10base : Camera :=
  { _w := some 100, _h := some 50, _K := none, _dist := none,
    _extrinsics := eye4na, _width := none, _height := none }

/-- C10 (code bug): after `read_calibration_from_file` succeeds on the
15-token example line, the `K` and `dist` accessors do return the parsed
values, but `width`/`height` still return the construction-time values
(100/50): the method assigns the parsed 1920/1080 to the fresh attributes
`_width`/`_height` instead of the `_w`/`_h` the properties read. -/
theorem C10_read_calibration_width_bug :
    (read_calibration_from_file c10base calib15Example).map Camera.width = .ok (some 100)
      ∧ (read_calibration_from_file c10base calib15Example).map Camera.height = .ok (some 50)
      ∧ (read_calibration_from_file c10base calib15Example).map Camera._width = .ok (some 1920)
      ∧ (read_calibration_from_file c10base calib15Example).map Camera._height = .ok (some 1080)
      ∧ (read_calibration_from_file c10base calib15Example).map Camera.K = .ok (some Kc)
      ∧ (read_calibration_from_file c10base calib15Example).map Camera.dist
          = .ok (some [0.1, 0.05, 0.001, 0.002])
      ∧ some (100 : ℚ) ≠ some (1920 : ℚ) := by
  refine ⟨rfl, rfl, rfl, rfl, ?_, rfl, by norm_num⟩
  rw [show (read_calibration_from_file c10base calib15Example).map Camera.K
      = .ok (some (fun i j =>
          (calib15Example.getD (2 + 3 * (i : Fin 3) + (j : Fin 3)) 0 : ℚ))) from rfl,
    calib15_K_eq]

/-- Embeds the distortion-coefficient remapping of
`Calibration.read_agisoft_xml_opencv`.  The XML tree traversal itself is
file I/O; `dist_` is the raw coefficient vector read from the
`distortion_coefficients` data block.  The code reads `dist_[0..3]`
(IndexError when fewer than 4 coefficients are present), swaps
`p1 = dist_[3]` with `p2 = dist_[2]`, sets `k3` on the `len == 5` branch
and `k3, k4` on the `len == 6` branch (`None` otherwise), and packs
`[k1, k2, p1, p2, k3, k4]`. -/
def read_agisoft_xml_opencv_dist (dist_ : List ℚ) : Except PyErr (List (Option ℚ)) :=
  if dist_.length < 4 then .error .indexError
  else
    let k1 := dist_.getD 0 0
    let k2 := dist_.getD 1 0
    let p1 := dist_.getD 3 0
    let p2 := dist_.getD 2 0
    let k34 : Option ℚ × Option ℚ :=
      if dist_.length = 5 then (some (dist_.getD 4 0), none)
      else if dist_.length = 6 then (some (dist_.getD 4 0), some (dist_.getD 5 0))
      else (none, none)
    .ok [some k1, some k2, some p1, some p2, k34.1, k34.2]

/-- C6: for every parsed distortion vector `dist_` (at least the four
coefficients `k1 k2 p1 p2` on disk), the Agisoft/OpenCV XML loader
remaps `k1 = dist_[0]`, `k2 = dist_[1]`, `p1 = dist_[3]`,
`p2 = dist_[2]` — the p1/p2 swap relative to storage order — with `k3`
set from `dist_[4]` exactly when the length is 5 or 6 and `k4` set from
`dist_[5]` exactly when the length is 6. -/
theorem C6_agisoft_dist_remap (dist_ : List ℚ) (h : 4 ≤ dist_.length) :
    read_agisoft_xml_opencv_dist dist_
      = .ok [some (dist_.getD 0 0), some (dist_.getD 1 0),
          some (dist_.getD 3 0), some (dist_.getD 2 0),
          if dist_.length = 5 ∨ dist_.length = 6 then some (dist_.getD 4 0) else none,
          if dist_.length = 6 then some (dist_.getD 5 0) else none] := by
  have h4 : ¬ dist_.length < 4 := by omega
  by_cases h5 : dist_.length = 5
  · simp [read_agisoft_xml_opencv_dist, h5]
  · by_cases h6 : dist_.length = 6
    · simp [read_agisoft_xml_opencv_dist, h6]
    · simp [read_agisoft_xml_opencv_dist, h4, h5, h6]

theorem C6_agisoft_dist_remap_witness :
    read_agisoft_xml_opencv_dist [1, 2, 3, 4, 5]
      = .ok [some 1, some 2, some 4, some 3, some 5, none] :=
  (C6_agisoft_dist_remap [1, 2, 3, 4, 5] (by norm_num)).trans rfl

/-- Lower-cases a string character by character, as Python's
`str.lower()` does for the ASCII range the sensor database uses. -/
def pyLower (s : String) : String := String.mk (s.data.map Char.toLower)

/-- Helper for `pySplit`: walks the characters, accumulating the current
token (reversed) and emitting it at each space run. -/
def pySplitAux : List Char → List Char → List String
  | [], acc => if acc.isEmpty then [] else [String.mk acc.reverse]
  | c :: cs, acc =>
    if c = ' ' then
      if acc.isEmpty then pySplitAux cs []
      else String.mk acc.reverse :: pySplitAux cs []
    else pySplitAux cs (c :: acc)

/-- Embeds Python's `str.split()` with no separator: splits on runs of
blanks and never yields an empty token. -/
def pySplit (s : String) : List String := pySplitAux s.data []

/-- Embeds `SensorWidthDatabase.lookup` over the CSV rows
`(CameraMaker, CameraModel, SensorWidth(mm))`: the query make's first
whitespace token and the query model are lower-cased and compared
against the (lower-cased) database columns; unless exactly one row
matches, LookupError is raised.  `make.split()[0]` on an all-blank make
raises IndexError. -/
def sensor_width_lookup (db : List (String × String × ℚ)) (make model : String) :
    Except PyErr ℚ :=
  match pySplit make with
  | [] => .error .indexError
  | mk0 :: _ =>
    let lowerMake := pyLower mk0
    let lowerModel := pyLower model
    let selected :=
      db.filter (fun r => pyLower r.1 == lowerMake && pyLower r.2.1 == lowerModel)
    if selected.length = 1 then .ok ((selected.headD ("", "", 0)).2.2)
    else .error .lookupError

/-- The EXIF tags `Calibration.get_intrinsics_from_exif` reads; a `none`
field stands for a tag absent from the EXIF mapping. -/
structure ExifData where
  focalLength : Option ℚ
  make : Option String
  model : Option String
  imageWidth : Option ℚ
  imageLength : Option ℚ

/-- Embeds `Calibration.get_intrinsics_from_exif`.  Each `try` block
wraps its reads in `except OSError: log; return None` — but a missing
dict key raises KeyError and the database lookup raises LookupError,
neither of which is an OSError, so those exceptions propagate to the
caller and the log-and-return-None branches are unreachable on these
paths.  On success: `focal_px = max(h, w) * focal_mm / sensor_width_mm`,
`K = [[focal_px, 0, w/2], [0, focal_px, h/2], [0, 0, 1]]`,
`dist = zeros(5)`. -/
def get_intrinsics_from_exif (db : List (String × String × ℚ)) (exif : ExifData) :
    Except PyErr (ℚ × ℚ × M3 × List ℚ) := do
  let focal ← match exif.focalLength with
    | some f => Except.ok f
    | none => Except.error PyErr.keyError
  let mk0 ← match exif.make with
    | some m => Except.ok m
    | none => Except.error PyErr.keyError
  let mdl ← match exif.model with
    | some m => Except.ok m
    | none => Except.error PyErr.keyError
  let sw ← sensor_width_lookup db mk0 mdl
  let w ← match exif.imageWidth with
    | some x => Except.ok x
    | none => Except.error PyErr.keyError
  let h ← match exif.imageLength with
    | some x => Except.ok x
    | none => Except.error PyErr.keyError
  let focalPx := max h w * focal / sw
  Except.ok (w, h,
    ![![focalPx, 0, w / 2], ![0, focalPx, h / 2], ![0, 0, 1]],
    List.replicate 5 0)

/-- A one-row sensor database (Nikon D800, 35.9 mm). -/
def dbExample : List (String × String × ℚ) :=
  [("nikon corporation", "nikon d800", 359 / 10)]

/-- An EXIF mapping with no tags at all. -/
def exifEmpty : ExifData := ⟨none, none, none, none, none⟩

/-- A complete EXIF mapping for a camera absent from the database. -/
def exifUnknownCamera : ExifData :=
  ⟨some 35, some "Canon", some "EOS 5D", some 6000, some 4000⟩

/-- C7 (code bug): `get_intrinsics_from_exif` does not return `None` on
a missing EXIF field or a failed sensor-width lookup — the `except
OSError` handlers cannot catch the KeyError/LookupError actually raised,
so both exceptions propagate to the caller. -/
theorem C7_exif_errors_propagate :
    get_intrinsics_from_exif dbExample exifEmpty = .error .keyError
      ∧ get_intrinsics_from_exif dbExample exifUnknownCamera = .error .lookupError := by
  exact ⟨rfl, rfl⟩

/-- Embeds `np.sign` on a scalar. -/
def npSign (x : ℚ) : ℚ := if 0 < x then 1 else if x < 0 then -1 else 0

/-- Diagonal 3x3 matrix (`np.diag` of a vector). -/
def diag3 (d : V3) : M3 := fun i j => if i = j then d i else 0

/-- Embeds the sign-normalization step of `Camera.factor_P` on the RQ
factors `(K0, R0)` of `P[:, :3]` (the RQ decomposition itself is the
external `scipy.linalg.rq` collaborator, contracted to return an upper
triangular `K0` and an orthogonal `R0` with `K0 @ R0 = P[:, :3]`):
`T = np.diag(np.sign(np.diag(K0)))`; if `det(T) < 0` then `T[1, 1] *= -1`;
`K = K0 @ T`, `R = T @ R0`. -/
def factor_P_KR (K0 R0 : M3) : M3 × M3 :=
  let T0 := diag3 (fun i => npSign (K0 i i))
  let T := if det3 T0 < 0 then (fun i j => if i = 1 ∧ j = 1 then -(T0 i j) else T0 i j) else T0
  (mul3 K0 T, mul3 T R0)

/-- Adjugate (transposed cofactor matrix) of a 3x3 matrix. -/
def adj3 (A : M3) : M3 :=
  ![![A 1 1 * A 2 2 - A 1 2 * A 2 1, -(A 0 1 * A 2 2 - A 0 2 * A 2 1),
      A 0 1 * A 1 2 - A 0 2 * A 1 1],
    ![-(A 1 0 * A 2 2 - A 1 2 * A 2 0), A 0 0 * A 2 2 - A 0 2 * A 2 0,
      -(A 0 0 * A 1 2 - A 0 2 * A 1 0)],
    ![A 1 0 * A 2 1 - A 1 1 * A 2 0, -(A 0 0 * A 2 1 - A 0 1 * A 2 0),
      A 0 0 * A 1 1 - A 0 1 * A 1 0]]

/-- Embeds `linalg.inv` on a 3x3 matrix: adjugate over determinant. -/
def inv3 (A : M3) : M3 := fun i j => adj3 A i j / det3 A

/-- Embeds `t = np.dot(linalg.inv(K), P[:, 3]).reshape(3, 1)` of
`Camera.factor_P`. -/
def factor_P_t (K : M3) (p : V3) : V3 := mulv3 (inv3 K) p

/-- An RQ factor pair of the claimed camera's `P[:, :3]` whose `K0`
diagonal signs are `(-1, +1, +1)`: `K0 = Kc @ diag(-1, 1, 1)`,
`R0 = diag(-1, 1, 1)`. -/
def K0flip : M3 := ![![-1000, 0, 960], ![0, 1000, 540], ![0, 0, 1]]

/-- The orthogonal factor paired with `K0flip`. -/
def R0flip : M3 := ![![-1, 0, 0], ![0, 1, 0], ![0, 0, 1]]

theorem C3_counterexample :
    (K0flip 1 0 = 0 ∧ K0flip 2 0 = 0 ∧ K0flip 2 1 = 0)
      ∧ mul3 (tr3 R0flip) R0flip = id3
      ∧ mul3 K0flip R0flip = Kc
      ∧ (factor_P_KR K0flip R0flip).1 1 1 < 0
      ∧ det3 (factor_P_KR K0flip R0flip).2 = -1 := by
  have hT0 : (diag3 fun i => npSign (K0flip i i))
      = ![![(-1 : ℚ), 0, 0], ![0, 1, 0], ![0, 0, 1]] := by
    funext i j
    rcases m3_indices i with rfl | rfl | rfl <;> rcases m3_indices j with rfl | rfl | rfl <;>
      simp [diag3, npSign, K0flip, Matrix.vecHead, Matrix.vecTail] <;> norm_num
  have hfl : (fun i j => if i = 1 ∧ j = 1
        then -(![![(-1 : ℚ), 0, 0], ![0, 1, 0], ![0, 0, 1]] i j)
        else ![![(-1 : ℚ), 0, 0], ![0, 1, 0], ![0, 0, 1]] i j)
      = ![![(-1 : ℚ), 0, 0], ![0, -1, 0], ![0, 0, 1]] := by
    funext i j
    rcases m3_indices i with rfl | rfl | rfl <;> rcases m3_indices j with rfl | rfl | rfl <;>
      simp [Matrix.vecHead, Matrix.vecTail]
  have hKR : factor_P_KR K0flip R0flip
      = (mul3 K0flip ![![(-1 : ℚ), 0, 0], ![0, -1, 0], ![0, 0, 1]],
          mul3 ![![(-1 : ℚ), 0, 0], ![0, -1, 0], ![0, 0, 1]] R0flip) := by
    simp only [factor_P_KR]
    rw [hT0, if_pos (by norm_num [det3, Matrix.vecHead, Matrix.vecTail]), hfl]
  refine ⟨⟨rfl, rfl, rfl⟩, ?_, ?_, ?_, ?_⟩
  · funext i j
    rcases m3_indices i with rfl | rfl | rfl <;> rcases m3_indices j with rfl | rfl | rfl <;>
      simp [mul3, tr3, id3, R0flip, Matrix.vecHead, Matrix.vecTail]
  · funext i j
    rcases m3_indices i with rfl | rfl | rfl <;> rcases m3_indices j with rfl | rfl | rfl <;>
      simp [mul3, K0flip, R0flip, Kc, Matrix.vecHead, Matrix.vecTail] <;> norm_num
  · rw [hKR]
    norm_num [mul3, K0flip, Matrix.vecHead, Matrix.vecTail]
  · rw [hKR]
    norm_num [det3, mul3, R0flip, Matrix.vecHead, Matrix.vecTail]

theorem npSign_sq (x : ℚ) (hx : x ≠ 0) : npSign x * npSign x = 1 := by
  rcases lt_trichotomy 0 x with h | h | h
  · simp [npSign, h]
  · exact absurd h.symm hx
  · simp [npSign, h, asymm h]

theorem mul_npSign_pos (x : ℚ) (hx : x ≠ 0) : 0 < x * npSign x := by
  rcases lt_trichotomy 0 x with h | h | h
  · simp [npSign, h]
  · exact absurd h.symm hx
  · simp only [npSign, if_neg (asymm h), if_pos h]
    nlinarith

theorem mul3_diag3_apply (A : M3) (d : V3) (i j : Fin 3) :
    mul3 A (diag3 d) i j = A i j * d j := by
  rcases m3_indices j with rfl | rfl | rfl <;> simp [mul3, diag3] <;> ring

theorem diag3_mul3_apply (d : V3) (A : M3) (i j : Fin 3) :
    mul3 (diag3 d) A i j = d i * A i j := by
  rcases m3_indices i with rfl | rfl | rfl <;> simp [mul3, diag3] <;> ring

theorem mul3_assoc (A B C : M3) : mul3 (mul3 A B) C = mul3 A (mul3 B C) := by
  funext i j
  simp [mul3]
  ring

theorem diag3_diag3 (d : V3) : mul3 (diag3 d) (diag3 d) = diag3 (fun i => d i * d i) := by
  funext i j
  rcases m3_indices i with rfl | rfl | rfl <;> rcases m3_indices j with rfl | rfl | rfl <;>
    simp [mul3, diag3]

theorem mul3_id3 (A : M3) : mul3 A id3 = A := by
  funext i j
  rcases m3_indices j with rfl | rfl | rfl <;> simp [mul3, id3]

theorem id3_mul3 (A : M3) : mul3 id3 A = A := by
  funext i j
  rcases m3_indices i with rfl | rfl | rfl <;> simp [mul3, id3]

theorem det3_diag3 (d : V3) : det3 (diag3 d) = d 0 * d 1 * d 2 := by
  simp [det3, diag3]
  ring

theorem det3_diag3_mul3 (d : V3) (A : M3) :
    det3 (mul3 (diag3 d) A) = d 0 * d 1 * d 2 * det3 A := by
  have h : ∀ i j, mul3 (diag3 d) A i j = d i * A i j := diag3_mul3_apply d A
  simp only [det3, h]
  ring

/-- C3 (amended): with `(K0, R0)` the RQ factors of `P[:, :3]`,
`factor_P` builds `T = diag(sign(diag(K0)))` and flips `T[1,1]` when
`det(T) < 0`, which does force `det(T) = +1` afterwards; but `K = K0·T`
gains a positive diagonal and `R = T·R0` keeps the determinant of `R0`
only when no flip was needed, i.e. when the product of the diagonal
signs of `K0` is already +1 (the counterexample shows the flip makes
`K[1,1]` negative and negates `det R`).  In the no-flip case, for
nonzero diagonals: `K` has a positive diagonal, `det R = det R0`, and
`K·R = K0·R0` is preserved; and for the concrete camera
`K = [[1000,0,960],[0,1000,540],[0,0,1]]`, `R = I`, `t = [0,0,5]`
(whose `P[:, 3]` is `[4800, 2700, 5]`), `t = K⁻¹·P[:,3]` is recovered
exactly. -/
theorem C3_factor_P_sign_normalization (K0 R0 : M3)
    (hnz : ∀ i : Fin 3, K0 i i ≠ 0)
    (hsig : npSign (K0 0 0) * npSign (K0 1 1) * npSign (K0 2 2) = 1) :
    (∀ i : Fin 3, 0 < (factor_P_KR K0 R0).1 i i)
      ∧ det3 (factor_P_KR K0 R0).2 = det3 R0
      ∧ mul3 (factor_P_KR K0 R0).1 (factor_P_KR K0 R0).2 = mul3 K0 R0
      ∧ factor_P_t Kc ![4800, 2700, 5] = ![0, 0, 5] := by
  have hnoflip : ¬ det3 (diag3 fun i => npSign (K0 i i)) < 0 := by
    rw [det3_diag3]
    rw [hsig]
    norm_num
  have hKR : factor_P_KR K0 R0
      = (mul3 K0 (diag3 fun i => npSign (K0 i i)),
          mul3 (diag3 fun i => npSign (K0 i i)) R0) := by
    simp only [factor_P_KR]
    rw [if_neg hnoflip]
  refine ⟨?_, ?_, ?_, ?_⟩
  · intro i
    rw [hKR]
    show 0 < mul3 K0 (diag3 fun k => npSign (K0 k k)) i i
    rw [mul3_diag3_apply]
    exact mul_npSign_pos _ (hnz i)
  · rw [hKR]
    show det3 (mul3 (diag3 fun k => npSign (K0 k k)) R0) = det3 R0
    rw [det3_diag3_mul3]
    rw [show (npSign (K0 0 0) * npSign (K0 1 1) * npSign (K0 2 2)) * det3 R0
        = det3 R0 by rw [hsig]; ring]
  · rw [hKR]
    show mul3 (mul3 K0 (diag3 fun k => npSign (K0 k k)))
      (mul3 (diag3 fun k => npSign (K0 k k)) R0) = mul3 K0 R0
    rw [mul3_assoc, ← mul3_assoc (diag3 _), diag3_diag3]
    rw [show (diag3 fun i => npSign (K0 i i) * npSign (K0 i i)) = id3 by
      funext i j; rcases m3_indices i with rfl | rfl | rfl <;>
        simp [diag3, id3, npSign_sq _ (hnz 0), npSign_sq _ (hnz 1), npSign_sq _ (hnz 2)]]
    rw [id3_mul3]
  · funext i
    rcases m3_indices i with rfl | rfl | rfl <;>
      norm_num [factor_P_t, mulv3, inv3, adj3, det3, Kc, Matrix.vecHead, Matrix.vecTail]

theorem C3_factor_P_sign_normalization_witness :
    (∀ i : Fin 3, 0 < (factor_P_KR Kc id3).1 i i)
      ∧ det3 (factor_P_KR Kc id3).2 = det3 id3
      ∧ mul3 (factor_P_KR Kc id3).1 (factor_P_KR Kc id3).2 = mul3 Kc id3
      ∧ factor_P_t Kc ![4800, 2700, 5] = ![0, 0, 5] :=
  C3_factor_P_sign_normalization Kc id3
    (by intro i; rcases m3_indices i with rfl | rfl | rfl <;>
      norm_num [Kc, Matrix.vecHead, Matrix.vecTail])
    (by norm_num [Kc, npSign, Matrix.vecHead, Matrix.vecTail])

theorem exbind_ok {e a b : Type} (x : a) (f : a → Except e b) :
    (Except.ok x >>= f) = f x := rfl

theorem exbind_err {e a b : Type} (err : e) (f : a → Except e b) :
    ((Except.error err : Except e a) >>= f) = .error err := rfl

theorem len4_cases (l : List (List ℚ)) (h : l.length = 4) :
    ∃ a b c d, l = [a, b, c, d] := by
  rcases l with _ | ⟨a, l⟩
  · simp only [List.length_nil] at h
    omega
  rcases l with _ | ⟨b, l⟩
  · simp only [List.length_cons, List.length_nil] at h
    omega
  rcases l with _ | ⟨c, l⟩
  · simp only [List.length_cons, List.length_nil] at h
    omega
  rcases l with _ | ⟨d, l⟩
  · simp only [List.length_cons, List.length_nil] at h
    omega
  rcases l with _ | ⟨e, l⟩
  · exact ⟨a, b, c, d, rfl⟩
  · simp only [List.length_cons] at h
    omega

theorem build_block_ok (a : NpArr) (B : NpArr)
    (h : build_block_matrix a = .ok (some B)) :
    ∃ rs, B = .mat .float64 rs ∧ rs.length = 4 ∧ (∀ r ∈ rs, r.length = 4)
      ∧ rs.getD 3 [] = [0, 0, 0, 1] := by
  cases a with
  | vec d es => simp [build_block_matrix] at h
  | mat d rows =>
    simp only [build_block_matrix] at h
    by_cases h3 : (rows.headD []).length = 3
    · rw [if_pos h3] at h
      by_cases hr33 : isRectB rows 3 3 = true
      · rw [if_pos hr33] at h
        have hrect : rows.length = 3 ∧ ∀ r ∈ rows, r.length = 3 := by
          simpa [isRectB, List.all_eq_true] using hr33
        obtain ⟨ra, rb, rc, rfl⟩ := List.length_eq_three.mp hrect.1
        have hla : ra.length = 3 := hrect.2 ra (by simp)
        have hlb : rb.length = 3 := hrect.2 rb (by simp)
        have hlc : rc.length = 3 := hrect.2 rc (by simp)
        obtain rfl := (Option.some.inj (Except.ok.inj h)).symm
        refine ⟨_, rfl, by simp, ?_, by simp⟩
        intro r hr
        simp only [List.map_cons, List.map_nil, List.cons_append, List.nil_append,
          List.mem_cons, List.not_mem_nil, or_false] at hr
        rcases hr with rfl | rfl | rfl | rfl <;> simp [hla, hlb, hlc]
      · rw [if_neg hr33] at h
        exact absurd h (by simp)
    · rw [if_neg h3] at h
      by_cases h1 : (rows.headD []).length = 1
      · rw [if_pos h1] at h
        by_cases hr31 : isRectB rows 3 1 = true
        · rw [if_pos hr31] at h
          obtain rfl := (Option.some.inj (Except.ok.inj h)).symm
          refine ⟨_, rfl, by simp, ?_, by simp⟩
          intro r hr
          simp only [List.mem_cons, List.not_mem_nil, or_false] at hr
          rcases hr with rfl | rfl | rfl | rfl <;> simp
        · rw [if_neg hr31] at h
          exact absurd h (by simp)
      · rw [if_neg h1] at h
        exact absurd h (by simp)

theorem npMatmul_hom (ra rb : List (List ℚ)) (e : NpArr)
    (hra4 : ra.length = 4) (hraw : ∀ r ∈ ra, r.length = 4)
    (hrow : ra.getD 3 [] = [0, 0, 0, 1])
    (hrb4 : rb.length = 4) (hrbw : ∀ r ∈ rb, r.length = 4)
    (hrbrow : rb.getD 3 [] = [0, 0, 0, 1])
    (h : npMatmul (some (.mat .float64 ra)) (some (.mat .float64 rb)) = .ok e) :
    e.shape = [4, 4] ∧ e.row 3 = [0, 0, 0, 1] := by
  obtain ⟨a0, a1, a2, a3, rfl⟩ := len4_cases ra hra4
  obtain ⟨b0, b1, b2, b3, rfl⟩ := len4_cases rb hrb4
  have ha3 : a3 = [0, 0, 0, 1] := by simpa using hrow
  subst ha3
  have hb3 : b3 = [0, 0, 0, 1] := by simpa using hrbrow
  subst hb3
  have ha0 : a0.length = 4 := hraw a0 (by simp)
  have hb0 : b0.length = 4 := hrbw b0 (by simp)
  simp only [npMatmul] at h
  rw [if_pos (by simpa using ha0)] at h
  obtain rfl := (Except.ok.inj h).symm
  constructor
  · simp [NpArr.shape, hb0]
  · simp [NpArr.row, hb0, dotRow, List.range_succ]

theorem expure {e a : Type} (x : a) : (pure x : Except e a) = Except.ok x := rfl

theorem Rt_tail_hom (R t' e : NpArr)
    (h : (build_block_matrix R >>= fun R_block =>
          build_block_matrix t' >>= fun t_block => npMatmul t_block R_block) = .ok e) :
    e.shape = [4, 4] ∧ e.row 3 = [0, 0, 0, 1] := by
  cases hR : build_block_matrix R with
  | error err =>
    rw [hR, exbind_err] at h
    exact Except.noConfusion h
  | ok oR =>
    rw [hR, exbind_ok] at h
    cases hT : build_block_matrix t' with
    | error err =>
      rw [hT, exbind_err] at h
      exact Except.noConfusion h
    | ok oT =>
      rw [hT, exbind_ok] at h
      cases oT with
      | none =>
        exact Except.noConfusion h
      | some A =>
        cases oR with
        | none =>
          cases A <;> exact Except.noConfusion h
        | some B =>
          obtain ⟨rsT, rfl, hT4, hTw, hTrow⟩ := build_block_ok t' A hT
          obtain ⟨rsR, rfl, hR4, hRw, hRrow⟩ := build_block_ok R B hR
          exact npMatmul_hom rsT rsR e hT4 hTw hTrow hR4 hRw hRrow h

theorem Rt_to_extrinsics_hom (R t e : NpArr) (h : Rt_to_extrinsics R t = .ok e) :
    e.shape = [4, 4] ∧ e.row 3 = [0, 0, 0, 1] := by
  simp only [Rt_to_extrinsics] at h
  by_cases hc : t.shape.length = 1 ∨ t.shape = [1, 3]
  · rw [if_pos hc] at h
    by_cases h3 : t.shape.getD 0 0 = 3
    · rw [if_pos h3, expure, exbind_ok] at h
      exact Rt_tail_hom R (reshape31 t) e h
    · rw [if_neg h3, exbind_err] at h
      exact Except.noConfusion h
  · rw [if_neg hc, expure, exbind_ok] at h
    exact Rt_tail_hom R t e h

/-- The extrinsics slot of a construction result (`none` when the
constructor raised). -/
def extrOf : Except PyErr Camera → Option NpArr
  | .ok c => some c._extrinsics
  | .error _ => none

theorem C5_counterexample :
    extrOf (Camera.init (some 100) (some 50) none none none none (some extr3x3) none)
        = some extr3x3
      ∧ extr3x3.shape ≠ [4, 4] :=
  ⟨rfl, by decide⟩

/-- C5 (amended): the stored extrinsics matrix is the 4x4 identity after
construction without an exterior-orientation source and after
`reset_EO`; it is 4x4 with last row `[0, 0, 0, 1]` after construction
from `(R, t)` (whenever construction succeeds) and after every
successful `update_extrinsics`; and `update_K`, `update_dist` and
`read_calibration_from_file` leave it untouched.  But construction from
an explicit extrinsics matrix stores the argument unchecked, so the
invariant then holds only if the argument itself satisfies it (the
counterexample stores a 3x3 matrix). -/
theorem C5_extrinsics_invariant_amended :
    (∀ w h K d, extrOf (Camera.init w h K d none none none none) = some eye4na)
      ∧ (∀ w h K d R t c', Camera.init w h K d (some R) (some t) none none = .ok c' →
          c'._extrinsics.shape = [4, 4] ∧ c'._extrinsics.row 3 = [0, 0, 0, 1])
      ∧ (∀ c m c', update_extrinsics c m = .ok c' →
          c'._extrinsics.shape = [4, 4] ∧ c'._extrinsics.row 3 = [0, 0, 0, 1])
      ∧ (∀ c, (reset_EO c)._extrinsics = eye4na)
      ∧ (∀ c K, (update_K c K)._extrinsics = c._extrinsics)
      ∧ (∀ c d, (update_dist c d)._extrinsics = c._extrinsics)
      ∧ (∀ c data c', read_calibration_from_file c data = .ok c' →
          c'._extrinsics = c._extrinsics)
      ∧ (∀ w h K d e, extrOf (Camera.init w h K d none none (some e) none) = some e)
      ∧ eye4na.shape = [4, 4] ∧ eye4na.row 3 = [0, 0, 0, 1] := by
  refine ⟨fun w h K d => rfl, ?_, ?_, fun c => rfl, fun c K => rfl, fun c d => rfl,
    ?_, fun w h K d e => rfl, rfl, rfl⟩
  · intro w h K d R t c' hinit
    simp only [Camera.init] at hinit
    cases hRt : Rt_to_extrinsics R t with
    | error err =>
      rw [hRt] at hinit
      exact Except.noConfusion hinit
    | ok e =>
      rw [hRt] at hinit
      obtain rfl := (Except.ok.inj hinit).symm
      exact Rt_to_extrinsics_hom R t e hRt
  · intro c m c' hup
    simp only [update_extrinsics] at hup
    split_ifs at hup with h1 h2 h3
    obtain rfl := (Except.ok.inj hup).symm
    exact ⟨h1, h3⟩
  · intro c data c' hread
    simp only [read_calibration_from_file] at hread
    cases hr : read_opencv_calibration data with
    | error err =>
      rw [hr, exbind_err] at hread
      exact Except.noConfusion hread
    | ok r =>
      rw [hr, exbind_ok, expure] at hread
      obtain rfl := (Except.ok.inj hread).symm
      rfl
